import Mathlib

/-!
Verification of the gbemu Game Boy emulator core against its specification.

The definitions below are a shallow embedding of the C++ sources:
  - `src/cartridge.cpp` (MBC1 mapper, global state in namespace gb::cartridge)
  - `src/io.cpp` / `src/io.h` (I/O dispatcher, timer, interrupt flags)
  - `src/video.cpp` (PPU register file; the Impl struct)
  - `src/audio.cpp` (APU register file and channel state; the Impl struct)
  - `src/memory.cpp` / `memory.h` / `types.h` (bus routing, address map)
  - `src/cpu.h` (registers, flag helpers, ALU, stack ops, interrupt entry)
  - `main.cpp` (the scheduler loop's interrupt-dispatch block)

Machine bytes are modelled as `Nat` with explicit masking (`% 256`,
`% 65536`, `&&&`) exactly at the points where the C++ performs an
implicit `uint8_t` / `uint16_t` conversion.  C++ `int` counters are
modelled as `Int`.  Byte arrays are modelled as functions `Nat → Nat`
updated pointwise with `upd`.
-/

namespace Gbemu

/-- Pointwise update of a function-modelled array, as produced by a C++
array element assignment `data[i] = v`. -/
def upd {α : Type} (f : Nat → α) (i : Nat) (v : α) : Nat → α :=
  fun j => if j = i then v else f j

@[simp] theorem upd_same {α : Type} (f : Nat → α) (i : Nat) (v : α) :
    upd f i v i = v := by
  simp [upd]

theorem upd_other {α : Type} (f : Nat → α) (i j : Nat) (v : α) (h : j ≠ i) :
    upd f i v j = f j := by
  simp [upd, h]

/-! ## Cartridge / MBC1 mapper (src/cartridge.cpp)

The C++ keeps the mapper state in file-scope globals:
`cartridgeData` (the ROM image, a `std::vector<uint8_t>`), `externalRAM`
(`std::array<uint8_t, 8192>`, zero-initialised), `externalRamEnabled`,
`enableTracing` and `currentRomBank` (an `int`, initialised to 1).
The ROM image is modelled as a total function `rom` together with its
byte count `romSize`; a `std::vector` access beyond `romSize` would be
undefined behaviour in the source, so the theorems about ROM reads carry
an in-bounds hypothesis. -/

structure CartState where
  rom : Nat → Nat
  romSize : Nat
  extRam : Nat → Nat
  ramEnable : Bool
  tracing : Bool
  romBank : Nat

/-- Embedding of `gb::cartridge::Read_u8`.  Note two faithful oddities of
the source: the banked window adds `(addr - 0x4000) + currentRomBank *
16384`, and the disabled-external-RAM branch returns 0xff only when
`enableTracing` is set, because the `return 0xff` statement sits inside
the `if (!externalRamEnabled && enableTracing)` block. -/
def cartRead (c : CartState) (addr : Nat) : Nat :=
  if addr ≤ 0x3fff then c.rom addr
  else if 0x4000 ≤ addr ∧ addr ≤ 0x7fff then
    c.rom ((addr - 0x4000) + c.romBank * 16384)
  else if 0xa000 ≤ addr ∧ addr ≤ 0xbfff then
    if ¬c.ramEnable ∧ c.tracing then 0xff
    else c.extRam (addr - 0xa000)
  else 0xff

/-- Embedding of `gb::cartridge::Write_u8` (the `value` argument is a
`uint8_t`; callers pass a value below 256).  Faithful oddities: RAM is
enabled by `(value & 0xf) != 0`, and the ROM bank written to
0x2000..0x3fff is incremented when its low four bits are zero
(`(currentRomBank & 0xf) == 0`), not when the whole 5-bit value is zero. -/
def cartWrite (c : CartState) (addr v : Nat) : CartState :=
  if addr ≤ 0x1fff then { c with ramEnable := v &&& 0xf ≠ 0 }
  else if 0x2000 ≤ addr ∧ addr ≤ 0x3fff then
    let b := v &&& 0x1f
    { c with romBank := if b &&& 0xf = 0 then b + 1 else b }
  else if 0x4000 ≤ addr ∧ addr ≤ 0x5fff then c
  else if 0x6000 ≤ addr ∧ addr ≤ 0x7fff then c
  else if 0xa000 ≤ addr ∧ addr ≤ 0xbfff then
    if ¬c.ramEnable then c
    else { c with extRam := upd c.extRam (addr - 0xa000) v }
  else c

/-- Mapper state directly after `gb::cartridge::Load` of a given ROM
image: external RAM zeroed, RAM disabled, tracing off, bank 1. -/
def loadedCart (rom : Nat → Nat) (romSize : Nat) : CartState :=
  { rom := rom, romSize := romSize, extRam := fun _ => 0,
    ramEnable := false, tracing := false, romBank := 1 }

/-- A concrete 256 KiB ROM image whose every byte records its own bank
number, used to exercise the bank-switch scenarios. -/
def bankMarkedRom : Nat → Nat := fun n => (n / 0x4000) % 256

def cart256 : CartState := loadedCart bankMarkedRom 0x40000

/-! ## APU (src/audio.cpp)

`Audio::Impl` holds three `Channel` structs (the source array is
`std::array<Channel, 3>`), the stereo routing masks, the master volumes,
a 48-byte register backing store `data` indexed by `address - io::NR10`,
the power flag `audioEnabled` and the frame-sequencer counters.  All
C++ `int` members are modelled as `Int`, except the bit-manipulated
`frequency`, `dutyCycleType`, `currentDutyCycle` and `sweepShift`,
which stay `Nat` (they are always non-negative in the source). -/

structure Channel where
  enabled : Bool
  lengthEnabled : Bool
  lengthCounter : Int
  initialVolume : Int
  currentVolume : Int
  dutyCycleType : Nat
  currentDutyCycle : Nat
  frequency : Nat
  periodTimer : Int
  volumeEnvelopeAdd : Int
  volumeEnvelopePeriod : Int
  volumeEnvelopeTimer : Int
  sweepEnabled : Bool
  sweepTimer : Int
  sweepFrequency : Int
  sweepPeriod : Int
  sweepAdd : Bool
  sweepShift : Nat

/-- A value-initialised `Channel` (all members zero / false). -/
def Channel.init : Channel :=
  { enabled := false, lengthEnabled := false, lengthCounter := 0,
    initialVolume := 0, currentVolume := 0, dutyCycleType := 0,
    currentDutyCycle := 0, frequency := 0, periodTimer := 0,
    volumeEnvelopeAdd := 0, volumeEnvelopePeriod := 0,
    volumeEnvelopeTimer := 0, sweepEnabled := false, sweepTimer := 0,
    sweepFrequency := 0, sweepPeriod := 0, sweepAdd := false,
    sweepShift := 0 }

structure AudioState where
  c0 : Channel
  c1 : Channel
  c2 : Channel
  outputLeft : Nat → Bool
  outputRight : Nat → Bool
  masterVolumeLeft : Int
  masterVolumeRight : Int
  adata : Nat → Nat
  audioEnabled : Bool
  cycleCounter : Int
  step : Int
  sampleTimer : Int

/-- `FrequenceToPeriod` from src/audio.cpp. -/
def frequenceToPeriod (freq : Nat) : Int := ((2048 : Int) - freq) * 4

/-- `Audio::Impl::IsEnabled`: bit 7 of the NR52 backing byte
(`data[io::NR52 - io::NR10]`, index 22). -/
def audioIsEnabled (s : AudioState) : Prop := s.adata 22 &&& 0x80 ≠ 0

instance (s : AudioState) : Decidable (audioIsEnabled s) := by
  unfold audioIsEnabled; infer_instance

/-- The `registerOrMask` table of `Audio::Impl::Read` (23 entries,
NR10..NR52).  The source indexes this `std::array` with
`address - io::NR10`, which for the wave-RAM addresses 0xff30..0xff3f
is out of bounds (undefined behaviour); those indexes are modelled with
the `getD` default 0. -/
def registerOrMask : List Nat :=
  [0x80, 0x3f, 0x00, 0xff, 0xbf,
   0xff, 0x3f, 0x00, 0xff, 0xbf,
   0x7f, 0xff, 0x9f, 0xff, 0xbf,
   0xff, 0xff, 0x00, 0x00, 0xbf,
   0x00, 0x00, 0x70]

/-- Embedding of `Audio::Impl::Read`. -/
def audioRead (s : AudioState) (addr : Nat) : Nat :=
  if 0xff27 ≤ addr ∧ addr ≤ 0xff2f then 0xff
  else s.adata (addr - 0xff10) ||| registerOrMask.getD (addr - 0xff10) 0

/-- Update of channel 0 or 1 selected the way the source selects
`channel[address == io::NRx1 ? 0 : 1]`. -/
def updCh01 (s : AudioState) (first : Bool) (f : Channel → Channel) : AudioState :=
  if first then { s with c0 := f s.c0 } else { s with c1 := f s.c1 }

/-- Embedding of `Audio::Impl::Write` (`value` is a `uint8_t`; callers
pass a value below 256).  The NR52 case keeps the power flag and the
masked register byte; every other write is dropped while the APU is
powered off, and otherwise updates the addressed channel fields (the
`switch`) and then stores the raw byte in the backing array. -/
def audioWrite (s : AudioState) (addr v : Nat) : AudioState :=
  if addr = 0xff26 then
    let nextEnabled : Bool := v &&& 0x80 != 0
    let s := if !s.audioEnabled && nextEnabled then
        { s with cycleCounter := 8192, step := 0 }
      else s
    { s with audioEnabled := nextEnabled,
             adata := upd s.adata 22 (v &&& 0x80) }
  else if ¬audioIsEnabled s then s
  else
    let s :=
      if addr = 0xff10 then
        { s with c0 := { s.c0 with
            sweepPeriod := (((v >>> 4) &&& 7 : Nat) : Int),
            sweepAdd := v &&& 0x8 != 0,
            sweepShift := v &&& 7 } }
      else if addr = 0xff11 ∨ addr = 0xff16 then
        updCh01 s (addr == 0xff11) fun ch =>
          { ch with dutyCycleType := v >>> 6,
                    lengthCounter := (64 : Int) - ((v &&& 63 : Nat) : Int) }
      else if addr = 0xff12 ∨ addr = 0xff17 then
        updCh01 s (addr == 0xff12) fun ch =>
          { ch with initialVolume := ((v >>> 4 : Nat) : Int),
                    currentVolume := ((v >>> 4 : Nat) : Int),
                    volumeEnvelopeAdd := if v &&& 0x8 ≠ 0 then 1 else -1,
                    volumeEnvelopePeriod := ((v &&& 7 : Nat) : Int),
                    volumeEnvelopeTimer := ((v &&& 7 : Nat) : Int) }
      else if addr = 0xff13 ∨ addr = 0xff18 then
        updCh01 s (addr == 0xff13) fun ch =>
          { ch with frequency := (ch.frequency &&& 0x700) ||| v }
      else if addr = 0xff14 ∨ addr = 0xff19 then
        updCh01 s (addr == 0xff14) fun ch =>
          let ch := { ch with
            frequency := (ch.frequency &&& 0xff) ||| ((v &&& 7) <<< 8),
            lengthEnabled := v &&& 0x40 != 0 }
          if v &&& 0x80 ≠ 0 then
            let ch := { ch with
              enabled := true,
              lengthCounter := if ch.lengthCounter = 0 then 64 else ch.lengthCounter,
              periodTimer := frequenceToPeriod ch.frequency,
              volumeEnvelopeTimer := ch.volumeEnvelopePeriod,
              currentVolume := ch.initialVolume,
              currentDutyCycle := 0 }
            if addr = 0xff14 then
              { ch with sweepEnabled := decide (ch.sweepPeriod > 0 ∨ ch.sweepShift > 0),
                        sweepFrequency := ((ch.frequency : Nat) : Int),
                        sweepTimer := ch.sweepPeriod }
            else ch
          else ch
      else if addr = 0xff24 then
        { s with masterVolumeLeft := (((v >>> 4) &&& 7 : Nat) : Int),
                 masterVolumeRight := ((v &&& 7 : Nat) : Int) }
      else if addr = 0xff25 then
        { s with
            outputLeft := fun i =>
              if i = 3 then v &&& 0x80 != 0
              else if i = 2 then v &&& 0x40 != 0
              else if i = 1 then v &&& 0x20 != 0
              else if i = 0 then v &&& 0x10 != 0
              else s.outputLeft i,
            outputRight := fun i =>
              if i = 3 then v &&& 0x8 != 0
              else if i = 2 then v &&& 0x4 != 0
              else if i = 1 then v &&& 0x2 != 0
              else if i = 0 then v &&& 0x1 != 0
              else s.outputRight i }
      else s
    { s with adata := upd s.adata (addr - 0xff10) v }

/-- The `Audio::Impl` state right after construction: value-initialised
members, with `sampleTimer = SampleTimerReload = 4194304 / 48000`. -/
def audioInit : AudioState :=
  { c0 := Channel.init, c1 := Channel.init, c2 := Channel.init,
    outputLeft := fun _ => false, outputRight := fun _ => false,
    masterVolumeLeft := 0, masterVolumeRight := 0,
    adata := fun _ => 0, audioEnabled := false,
    cycleCounter := 0, step := 0, sampleTimer := 4194304 / 48000 }

/-! ## PPU register file (src/video.cpp)

`Video::Impl` keeps the LCD registers in a 12-byte array `data` indexed
by `address - io::LCDC` (so LY is index 4, LYC index 5, STAT index 1),
the LCD `mode` (an `int`, starting in mode 2 / OAM scan) and the
scanline state counters.  The rendering members (`displayLine`,
`sprites`, `activeSprites`) and `Video::Impl::Tick` only feed the frame
buffer and are not referenced by any claim, so they are not embedded;
`Read` and `Write`, which the I/O dispatcher forwards to, are embedded
in full. -/

structure VideoState where
  mode : Int
  stateCycles : Int
  stateCounter : Int
  vdata : Nat → Nat

/-- Embedding of `Video::Impl::Read`: STAT (0xff41) reads back
`(value | 0x80) | mode`; every other register returns its stored byte. -/
def videoRead (s : VideoState) (addr : Nat) : Nat :=
  if addr = 0xff41 then (s.vdata 1 ||| 0x80) ||| s.mode.toNat
  else s.vdata (addr - 0xff40)

/-- Embedding of `Video::Impl::Write`: STAT writes are masked with 0x78;
every other register (LY at 0xff44 included) stores the byte as is. -/
def videoWrite (s : VideoState) (addr v : Nat) : VideoState :=
  let v := if addr = 0xff41 then v &&& 0x78 else v
  { s with vdata := upd s.vdata (addr - 0xff40) v }

/-- The `Video::Impl` state right after construction: mode 2 (OAM scan),
zeroed counters and a zeroed register file. -/
def videoInit : VideoState :=
  { mode := 2, stateCycles := 0, stateCounter := 0, vdata := fun _ => 0 }

/-! ## The machine: bus, I/O dispatcher and memory (src/memory.cpp, src/io.cpp)

`Memory` owns a 65536-byte array `data` and a reference to the `IO`
dispatcher; `IO` owns a 128-byte register array `data` (indexed by
`address - memory_map::IOStart`), the separate `ie` byte, the timer
counters (`timaCount`, `divCount`, `lcdCount`, all C++ `int`) and the
`buttonPressed` mask, plus references to `Video` and `Audio`.  All of
this is flattened into one `Machine` record; the CPU register file is
kept separate, as in the source. -/

structure Machine where
  mem : Nat → Nat
  ioData : Nat → Nat
  ie : Nat
  timaCount : Int
  divCount : Int
  lcdCount : Int
  buttonPressed : Nat
  video : VideoState
  audio : AudioState
  cart : CartState

/-- `IsInRange` / `IsRAM` from src/memory.cpp: VRAM, WRAM bank 0/1, the
mirror region, HRAM and OAM. -/
def isRAM (a : Nat) : Prop :=
  (0x8000 ≤ a ∧ a ≤ 0x9fff) ∨ (0xc000 ≤ a ∧ a ≤ 0xcfff) ∨
  (0xd000 ≤ a ∧ a ≤ 0xdfff) ∨ (0xe000 ≤ a ∧ a ≤ 0xfdff) ∨
  (0xff80 ≤ a ∧ a ≤ 0xfffe) ∨ (0xfe00 ≤ a ∧ a ≤ 0xfe9f)

/-- `IsIO` from src/memory.cpp: the I/O window plus the IE register. -/
def isIoRange (a : Nat) : Prop := (0xff00 ≤ a ∧ a ≤ 0xff7f) ∨ a = 0xffff

/-- `IsCartridge` from src/memory.cpp: both cartridge windows. -/
def isCartridge (a : Nat) : Prop :=
  a ≤ 0x7fff ∨ (0xa000 ≤ a ∧ a ≤ 0xbfff)

instance (a : Nat) : Decidable (isRAM a) := by unfold isRAM; infer_instance

instance (a : Nat) : Decidable (isIoRange a) := by unfold isIoRange; infer_instance

instance (a : Nat) : Decidable (isCartridge a) := by
  unfold isCartridge; infer_instance

/-- Clearing bit `k` of the byte `v`, as `v &= ~(1 << k)` does on a
`uint8_t`. -/
def clearBit (v k : Nat) : Nat := v &&& (0xff ^^^ (1 <<< k))

/-- The joypad read, `case io::P1` of `IO::Read`: bits 5/4 of the stored
P1 byte select the button and direction nibbles of `buttonPressed`
(active low), starting from 0xcf. -/
def joypadRead (m : Machine) : Nat :=
  let p1 := m.ioData 0
  let v := 0xcf
  let v :=
    if p1 &&& 0x20 = 0 then
      let v := if m.buttonPressed &&& 0x40 ≠ 0 then clearBit v 3 else v
      let v := if m.buttonPressed &&& 0x80 ≠ 0 then clearBit v 2 else v
      let v := if m.buttonPressed &&& 0x02 ≠ 0 then clearBit v 1 else v
      if m.buttonPressed &&& 0x01 ≠ 0 then clearBit v 0 else v
    else v
  if p1 &&& 0x10 = 0 then
    let v := if m.buttonPressed &&& 0x20 ≠ 0 then clearBit v 3 else v
    let v := if m.buttonPressed &&& 0x10 ≠ 0 then clearBit v 2 else v
    let v := if m.buttonPressed &&& 0x04 ≠ 0 then clearBit v 1 else v
    if m.buttonPressed &&& 0x08 ≠ 0 then clearBit v 0 else v
  else v

/-- Embedding of `IO::Read`: P1 and IE are special-cased, the LCDC..WX
range goes to the PPU, the NR10..wave-RAM range goes to the APU, and
anything else returns the backing byte. -/
def ioRead (m : Machine) (addr : Nat) : Nat :=
  if addr = 0xff00 then joypadRead m
  else if addr = 0xffff then m.ie
  else if 0xff40 ≤ addr ∧ addr ≤ 0xff4b then videoRead m.video addr
  else if 0xff10 ≤ addr ∧ addr ≤ 0xff3f then audioRead m.audio addr
  else m.ioData (addr - 0xff00)

/-- Embedding of `IO::Write`.  The PPU and APU ranges are forwarded
before the `switch`, so the `case io::LY: break` arm (which would drop
LY writes) is unreachable: LY lies inside the forwarded LCDC..WX range.
DIV writes reset the byte; IE stores the byte; everything else stores
the byte in the backing array. -/
def ioWrite (m : Machine) (addr v : Nat) : Machine :=
  if 0xff40 ≤ addr ∧ addr ≤ 0xff4b then
    { m with video := videoWrite m.video addr v }
  else if 0xff10 ≤ addr ∧ addr ≤ 0xff3f then
    { m with audio := audioWrite m.audio addr v }
  else if addr = 0xff44 then m
  else if addr = 0xffff then { m with ie := v }
  else if addr = 0xff04 then { m with ioData := upd m.ioData 4 0 }
  else { m with ioData := upd m.ioData (addr - 0xff00) v }

/-- Embedding of `IO::GetPendingIRQ`: the lowest index `n < 8` whose bit
is set in `IF & IE`, or none when `IF & IE` is zero. -/
def getPendingIRQ (m : Machine) : Option Nat :=
  let pending := m.ioData 15 &&& m.ie
  if pending = 0 then none
  else (List.range 8).find? fun n => pending &&& (1 <<< n) != 0

/-- Embedding of `IO::ClearPendingIRQ`: `IF &= ~(1 << n)`. -/
def clearPendingIRQ (m : Machine) (n : Nat) : Machine :=
  { m with ioData := upd m.ioData 15 (clearBit (m.ioData 15) n) }

/-- Embedding of `IO::Tick`.  Faithful details: DIV advances once per
call when `divCount` reaches 256 and the sub-counter resets to zero;
the `lcdCount` counter is never reset; the TIMA block is gated on TAC
bit 0 (`(tac & 1) == 0`), not on the TAC enable bit 2; TIMA is bumped
at most once per call and `timaCount` resets to zero. -/
def ioTick (m : Machine) (cycles : Int) : Machine :=
  let m := { m with divCount := m.divCount + cycles }
  let m :=
    if m.divCount ≥ 256 then
      { m with ioData := upd m.ioData 4 ((m.ioData 4 + 1) % 256),
               divCount := 0 }
    else m
  let m := { m with lcdCount := m.lcdCount + cycles }
  let m :=
    if m.lcdCount ≥ 10 then
      let ly := (m.ioData 0x44 + 1) % 256
      { m with ioData := upd m.ioData 0x44 (if ly = 154 then 0 else ly) }
    else m
  let tac : Nat := m.ioData 7
  if (tac &&& 1 : Nat) = 0 then m
  else
    let timaInterval : Int :=
      if tac &&& 3 = 0 then 1024
      else if tac &&& 3 = 1 then 16
      else if tac &&& 3 = 2 then 64
      else 256
    let m := { m with timaCount := m.timaCount + cycles }
    if m.timaCount ≥ timaInterval then
      let tima : Nat := m.ioData 5
      let m :=
        if tima = 255 then
          let d := upd (upd m.ioData 5 (m.ioData 6)) 15 (m.ioData 15 ||| 0x4)
          { m with ioData := d }
        else
          { m with ioData := upd m.ioData 5 ((tima + 1) % 256) }
      { m with timaCount := 0 }
    else m

/-- Embedding of `Memory::Read_u8` routing: I/O first, then the
cartridge windows, then RAM (with the 0xe000 mirror folded onto WRAM),
else 0xff. -/
def memRead (m : Machine) (addr : Nat) : Nat :=
  if isIoRange addr then ioRead m addr
  else if isCartridge addr then cartRead m.cart addr
  else if isRAM addr then
    let a := if 0xe000 ≤ addr ∧ addr ≤ 0xfdff then addr - 0xe000 + 0xc000
             else addr
    m.mem a
  else 0xff

/-- The routing part of `Memory::Write_u8` (everything after the DMA
block): cartridge, then RAM (mirror folded), then I/O, else dropped. -/
def memWriteRaw (m : Machine) (addr v : Nat) : Machine :=
  if isCartridge addr then { m with cart := cartWrite m.cart addr v }
  else if isRAM addr then
    let a := if 0xe000 ≤ addr ∧ addr ≤ 0xfdff then addr - 0xe000 + 0xc000
             else addr
    { m with mem := upd m.mem a v }
  else if isIoRange addr then ioWrite m addr v
  else m

/-- Embedding of `Memory::Write_u8` (the `value` argument is a
`uint8_t`, modelled by masking with `% 256` on entry).  A write to
0xff46 first performs the OAM DMA copy of 160 bytes from `value << 8`
to 0xfe00 through the bus, then the write itself is routed.  The copy
destinations 0xfe00..0xfe9f never equal 0xff46, so the recursive
`Write_u8` of the source is `memWriteRaw` there. -/
def memWrite (m : Machine) (addr v : Nat) : Machine :=
  let v := v % 256
  let m :=
    if addr = 0xff46 then
      (List.range 0xa0).foldl
        (fun acc n => memWriteRaw acc (0xfe00 + n) (memRead acc (v * 256 + n)))
        m
    else m
  memWriteRaw m addr v

/-! ## CPU (src/cpu.h)

`gb::cpu::Registers` keeps seven 8-bit registers, the flags byte `fl`,
the `ime` and `halt` booleans and the 16-bit `pc` and `sp`. -/

structure Registers where
  a : Nat
  b : Nat
  c : Nat
  d : Nat
  e : Nat
  h : Nat
  l : Nat
  fl : Nat
  ime : Bool
  halt : Bool
  pc : Nat
  sp : Nat

/-- `flag::Set`: `fl |= mask`. -/
def setF (fl mask : Nat) : Nat := fl ||| mask

/-- `flag::Clear`: `fl &= ~mask` on a `uint8_t`. -/
def clearF (fl mask : Nat) : Nat := fl &&& (0xff ^^^ mask)

/-- `flag::Assign`. -/
def assignF (fl mask : Nat) (b : Bool) : Nat :=
  if b then setF fl mask else clearF fl mask

/-- Embedding of `detail::Add_r8` composed with the `detail::Add_u8` it
calls, acting on `(accumulator, flags)`: the carry flag (bit 0x10) is
assigned from the full 9-bit sum first, then the half-carry is computed
from the low nibbles (`detail::CalculateHalfCarry_u8` with
`std::plus`), the accumulator is truncated to 8 bits, and Z (0x80) is
assigned, N (0x40) cleared and H (0x20) assigned. -/
def add_r8 (fl a imm8 : Nat) (carry : Bool) : Nat × Nat :=
  let c : Nat := cond carry 1 0
  let fl := assignF fl 0x10 (a + imm8 + c > 0xff : Bool)
  let half : Bool := ((a &&& 0xf) + (imm8 &&& 0xf) + (c &&& 0xf)) &&& 0x10 == 0x10
  let a' := (a + imm8 + c) % 256
  let fl := assignF fl 0x80 (a' == 0)
  let fl := clearF fl 0x40
  let fl := assignF fl 0x20 half
  (a', fl)

/-- `detail::Push_u8`: pre-decrement SP (16-bit wrap), then write the
byte through the bus. -/
def push8 (m : Machine) (r : Registers) (v : Nat) : Machine × Registers :=
  let r := { r with sp := (r.sp + 65535) % 65536 }
  (memWrite m r.sp v, r)

/-- `detail::Push_u16`: high byte first, then low byte. -/
def push16 (m : Machine) (r : Registers) (v : Nat) : Machine × Registers :=
  let (m, r) := push8 m r (v >>> 8)
  push8 m r (v &&& 0xff)

/-- `detail::Pop_u8`: read the byte at SP, then post-increment SP. -/
def pop8 (m : Machine) (r : Registers) : Nat × Registers :=
  (memRead m r.sp, { r with sp := (r.sp + 1) % 65536 })

/-- Opcode 0xf5, `push af`: push A, then push the flags byte; 16 cycles. -/
def opPushAF (m : Machine) (r : Registers) : (Machine × Registers) × Int :=
  let (m, r) := push8 m r r.a
  let (m, r) := push8 m r r.fl
  ((m, r), 16)

/-- Opcode 0xf1, `pop af`: pop the flags byte masked with `flag::mask`
(0xf0), then pop A; 12 cycles. -/
def opPopAF (m : Machine) (r : Registers) : (Machine × Registers) × Int :=
  let (v, r) := pop8 m r
  let r := { r with fl := v &&& 0xf0 }
  let (v, r) := pop8 m r
  ((m, { r with a := v }), 12)

/-- The push-af-then-pop-af composition used by the round-trip claim. -/
def pushPopAF (m : Machine) (r : Registers) : Machine × Registers :=
  let (mr, _) := opPushAF m r
  let (mr2, _) := opPopAF mr.1 mr.2
  mr2

/-- Opcode 0x80, `add a,b`: `detail::Add_r8(regs, regs.a, regs.b)`;
4 cycles. -/
def opAddAB (r : Registers) : Registers × Int :=
  let (a', fl') := add_r8 r.fl r.a r.b false
  ({ r with a := a', fl := fl' }, 4)

/-- `detail::ReadAndAdvancePC_u8`: the scheduler's opcode fetch. -/
def fetchOpcode (m : Machine) (r : Registers) : Nat × Registers :=
  (memRead m r.pc, { r with pc := (r.pc + 1) % 65536 })

/-- Embedding of `gb::cpu::InvokeIRQ`: push PC, jump to `0x40 + 8 * n`.
The source contains a literal `TODO wait 20 cycles` comment and neither
consumes cycles nor touches IME. -/
def invokeIRQ (m : Machine) (r : Registers) (n : Nat) : Machine × Registers :=
  let (m, r) := push16 m r r.pc
  (m, { r with pc := 0x40 + 8 * n })

/-- The interrupt-dispatch block at the bottom of the scheduler loop in
main.cpp: query the lowest pending IRQ; if one is pending, clear HALT,
and if IME is set, clear that IF bit and enter the handler via
`InvokeIRQ`.  IME itself is never cleared and no cycles are consumed. -/
def dispatchIRQ (m : Machine) (r : Registers) : Machine × Registers :=
  match getPendingIRQ m with
  | none => (m, r)
  | some n =>
      let r := { r with halt := false }
      if r.ime then invokeIRQ (clearPendingIRQ m n) r n
      else (m, r)

/-- The machine at power-up with a given cartridge: zeroed I/O backing
store, zeroed counters, video and audio as constructed.  (The 64 KiB
`Memory::data` array is not initialised by the source; it is taken as
all zero here, which no claim depends on.) -/
def powerUp (c : CartState) : Machine :=
  { mem := fun _ => 0, ioData := fun _ => 0, ie := 0,
    timaCount := 0, divCount := 0, lcdCount := 0, buttonPressed := 0,
    video := videoInit, audio := audioInit, cart := c }

/-- The power-up register file from main.cpp (no boot ROM). -/
def powerUpRegs : Registers :=
  { a := 0x01, b := 0x00, c := 0x13, d := 0x00, e := 0xd8,
    h := 0x01, l := 0x4d, fl := 0xb0, ime := false, halt := false,
    pc := 0x100, sp := 0xfffe }

/-- Addresses in plain writable RAM: WRAM (0xc000..0xdfff) or HRAM
(0xff80..0xfffe). -/
def plainRam (a : Nat) : Prop :=
  (0xc000 ≤ a ∧ a ≤ 0xdfff) ∨ (0xff80 ≤ a ∧ a ≤ 0xfffe)

instance (a : Nat) : Decidable (plainRam a) := by
  unfold plainRam; infer_instance

/-- The machine of the interrupt-dispatch scenario: power-up state with
IF = 0x01 (VBlank pending) and IE = 0x01. -/
def irqScenarioMachine : Machine :=
  { powerUp cart256 with ioData := upd (fun _ => 0) 15 0x01, ie := 0x01 }

/-- The registers of the interrupt-dispatch scenario: IME set,
PC = 0x1234, SP = 0xfffe. -/
def irqScenarioRegs : Registers :=
  { powerUpRegs with pc := 0x1234, sp := 0xfffe, ime := true }

/-- Timer scenario with TAC = 0x04: enable bit (bit 2) set, bit 0
clear; TIMA = 0xff, TMA = 0x37. -/
def timerTac04 : Machine :=
  { powerUp cart256 with
    ioData := upd (upd (upd (fun _ => 0) 7 0x04) 5 0xff) 6 0x37 }

/-- Timer scenario with TAC = 0x05 (both bit 2 and bit 0 set);
TIMA = 0xff, TMA = 0x37. -/
def timerTac05 : Machine :=
  { powerUp cart256 with
    ioData := upd (upd (upd (fun _ => 0) 7 0x05) 5 0xff) 6 0x37 }

/-- A machine whose cartridge ROM holds opcode 0x80 (`add a,b`) at the
power-up PC 0x100. -/
def addOpcodeMachine : Machine :=
  { powerUp cart256 with
    cart := loadedCart (fun n => if n = 0x100 then 0x80 else 0) 0x8000 }

/-- Machine with a pending IRQ in bit 5 only: IF = 0x20, IE = 0xe0. -/
def irqBit5Machine : Machine :=
  { powerUp cart256 with ioData := upd (fun _ => 0) 15 0x20, ie := 0xe0 }

/-! ## Helper lemmas about the bus and bit arithmetic -/

theorem memWrite_plainRam (m : Machine) (a v : Nat) (h : plainRam a) :
    memWrite m a v = { m with mem := upd m.mem a (v % 256) } := by
  have h46 : a ≠ 0xff46 := by unfold plainRam at h; omega
  have hc : ¬ isCartridge a := by unfold plainRam at h; unfold isCartridge; omega
  have hr : isRAM a := by unfold plainRam at h; unfold isRAM; omega
  have hm : ¬(0xe000 ≤ a ∧ a ≤ 0xfdff) := by unfold plainRam at h; omega
  simp only [memWrite, memWriteRaw, if_neg h46, if_neg hc, if_pos hr, if_neg hm]

theorem memRead_plainRam (m : Machine) (a : Nat) (h : plainRam a) :
    memRead m a = m.mem a := by
  have hio : ¬ isIoRange a := by unfold plainRam at h; unfold isIoRange; omega
  have hc : ¬ isCartridge a := by unfold plainRam at h; unfold isCartridge; omega
  have hr : isRAM a := by unfold plainRam at h; unfold isRAM; omega
  have hm : ¬(0xe000 ≤ a ∧ a ≤ 0xfdff) := by unfold plainRam at h; omega
  simp only [memRead, if_neg hio, if_neg hc, if_pos hr, if_neg hm]

set_option maxRecDepth 4096 in
theorem flagChain_bits :
    ∀ fl < 256, ∀ b1 b2 b3 : Bool,
      let g := assignF (clearF (assignF (assignF fl 0x10 b1) 0x80 b2) 0x40) 0x20 b3
      (g &&& 0x10 = 0x10 ↔ b1 = true) ∧ (g &&& 0x80 = 0x80 ↔ b2 = true) ∧
      g &&& 0x40 = 0 ∧ (g &&& 0x20 = 0x20 ↔ b3 = true) := by decide

set_option maxRecDepth 4096 in
theorem land15_mod16 : ∀ x < 256, x &&& 15 = x % 16 := by decide

theorem land16_gt15 : ∀ s < 32, (s &&& 0x10 = 0x10 ↔ s > 0xf) := by decide

theorem land15_small : (0 : Nat) &&& 15 = 0 ∧ (1 : Nat) &&& 15 = 1 := by decide

set_option maxRecDepth 8192 in
theorem findPending_high : ∀ q < 256,
    (q &&& 32 = 0 ∨ q % 32 ≠ 0 ∨
      (q ≠ 0 ∧ (List.range 8).find? (fun k => q &&& (1 <<< k) != 0) = some 5)) ∧
    (q &&& 64 = 0 ∨ q % 64 ≠ 0 ∨
      (q ≠ 0 ∧ (List.range 8).find? (fun k => q &&& (1 <<< k) != 0) = some 6)) ∧
    (q &&& 128 = 0 ∨ q % 128 ≠ 0 ∨
      (q ≠ 0 ∧ (List.range 8).find? (fun k => q &&& (1 <<< k) != 0) = some 7)) := by
  decide

/-! ## Claim theorems -/

/-- C1.  Interrupt dispatch from IME=1, IF=0x01, IE=0x01, PC=0x1234,
SP=0xfffe does push PC (SP ends at 0xfffc, low byte 0x34 at 0xfffc,
high byte 0x12 at 0xfffd), clears the IF bit and jumps to 0x40, exactly
as the claim says; but IME is left set (the dispatch block never clears
it) and no extra cycles are consumed (`InvokeIRQ` carries a literal
TODO comment for the 20 cycles), contradicting the claimed IME=0 and
20-cycle cost. -/
theorem interrupt_dispatch_no_ime_clear :
    (dispatchIRQ irqScenarioMachine irqScenarioRegs).2.sp = 0xfffc ∧
    (dispatchIRQ irqScenarioMachine irqScenarioRegs).1.mem 0xfffc = 0x34 ∧
    (dispatchIRQ irqScenarioMachine irqScenarioRegs).1.mem 0xfffd = 0x12 ∧
    (dispatchIRQ irqScenarioMachine irqScenarioRegs).2.pc = 0x40 ∧
    (dispatchIRQ irqScenarioMachine irqScenarioRegs).1.ioData 15 = 0x00 ∧
    (dispatchIRQ irqScenarioMachine irqScenarioRegs).2.ime = true := by
  decide

/-- C2.  MBC1 banked ROM read: for every address in 0x4000..0x7fff and
every current ROM bank, a cartridge read returns the ROM image byte at
`rom_bank * 0x4000 + (addr - 0x4000)` (stated with the offset in bounds
of the image, since a `std::vector` access past the end is undefined
behaviour); in particular, on a 256 KiB ROM, after writing 0x05 to
0x2000, reading 0x4000 returns ROM[0x05 * 0x4000]. -/
theorem mbc1_banked_rom_read :
    (∀ (c : CartState) (a : Nat), 0x4000 ≤ a → a ≤ 0x7fff →
      c.romBank * 0x4000 + (a - 0x4000) < c.romSize →
      cartRead c a = c.rom (c.romBank * 0x4000 + (a - 0x4000))) ∧
    (cartRead (cartWrite cart256 0x2000 0x05) 0x4000 =
        bankMarkedRom (0x05 * 0x4000) ∧
      bankMarkedRom (0x05 * 0x4000) = 0x05 ∧
      (cartWrite cart256 0x2000 0x05).romBank * 0x4000 + (0x4000 - 0x4000) <
        cart256.romSize) := by
  constructor
  · intro c a h1 h2 _
    unfold cartRead
    rw [if_neg (by omega), if_pos ⟨h1, h2⟩]
    exact congrArg c.rom (by omega)
  · refine ⟨by decide, by decide, by decide⟩

/-- C2 witness: the universal part applied at the 256 KiB cartridge,
bank 5, address 0x4000. -/
theorem mbc1_banked_rom_read_witness :
    (0x4000 ≤ 0x4000 ∧ (0x4000 : Nat) ≤ 0x7fff ∧
      (cartWrite cart256 0x2000 0x05).romBank * 0x4000 + (0x4000 - 0x4000) <
        (cartWrite cart256 0x2000 0x05).romSize) ∧
    cartRead (cartWrite cart256 0x2000 0x05) 0x4000 =
      (cartWrite cart256 0x2000 0x05).rom
        ((cartWrite cart256 0x2000 0x05).romBank * 0x4000 + (0x4000 - 0x4000)) :=
  ⟨⟨by decide, by decide, by decide⟩,
    (mbc1_banked_rom_read.1 (cartWrite cart256 0x2000 0x05) 0x4000
      (by decide) (by decide) (by decide))⟩

/-- C3.  With TAC=0x04 (timer-enable bit 2 set, bit 0 clear), TIMA=0xff
and TMA=0x37, ticking 1024 cycles leaves TIMA at 0xff and the IF timer
bit clear, because `IO::Tick` gates the TIMA logic on `(tac & 1) == 0`
(TAC bit 0) instead of the enable bit 2 that the claim (and the DMG
hardware) specify; the claim's own TAC=0x05 instance does hold: there
ticking 16 cycles reloads TIMA from TMA (0x37) and sets IF bit 2. -/
theorem timer_gated_on_wrong_tac_bit :
    ((ioTick timerTac04 1024).ioData 5 = 0xff ∧
      (ioTick timerTac04 1024).ioData 15 &&& 0x4 = 0) ∧
    ((ioTick timerTac05 16).ioData 5 = 0x37 ∧
      (ioTick timerTac05 16).ioData 15 &&& 0x4 = 0x4) := by
  decide

/-- C4.  From power-up, a single bus write of 200 to the LY register
0xff44 is stored verbatim (IO::Write forwards the LCDC..WX range to the
PPU before its own `case io::LY` ignore-arm can trigger, and
`Video::Impl::Write` does not mask LY), so the very next bus read of
0xff44 returns 200 > 153, refuting the claimed invariant
`LY ≤ 153` for states reachable by bus operations. -/
theorem ly_register_writable_beyond_153 :
    memRead (memWrite (powerUp cart256) 0xff44 200) 0xff44 = 200 ∧
    ¬(memRead (memWrite (powerUp cart256) 0xff44 200) 0xff44 ≤ 153) ∧
    (memWrite (powerUp cart256) 0xff44 200).video.mode = 2 := by
  decide

/-- C5.  With tracing disabled (the default), enabling external RAM,
writing 0xab to 0xa000, then disabling RAM and reading 0xa000 returns
the RAM byte 0xab — not the claimed 0xff — because the `return 0xff`
for the disabled case sits inside the `if (!externalRamEnabled &&
enableTracing)` tracing branch of `cartridge::Read_u8`. -/
theorem ram_disabled_read_not_gated :
    (cartRead
        (cartWrite (cartWrite (cartWrite cart256 0x0000 0x01) 0xa000 0xab)
          0x0000 0x00)
        0xa000 = 0xab ∧
      (cartWrite (cartWrite (cartWrite cart256 0x0000 0x01) 0xa000 0xab)
          0x0000 0x00).ramEnable = false) ∧
    (0xab : Nat) ≠ 0xff := by
  decide

/-- C6.  Writing 0x10 to the 0x2000..0x3fff bank-select window yields
rom_bank = 0x11, not the claimed 0x10: `cartridge::Write_u8` increments
the bank whenever its low four bits are zero (`(currentRomBank & 0xf)
== 0`) instead of only when the whole 5-bit value is zero.  (The
claim's consequence that the bank is never 0, and the 0x00 → 0x01
case, do hold.) -/
theorem rom_bank_bumped_on_low_nibble_zero :
    (cartWrite cart256 0x2000 0x10).romBank = 0x11 ∧
    (0x11 : Nat) ≠ 0x10 ∧
    (cartWrite cart256 0x2000 0x00).romBank = 0x01 := by
  decide

/-- C7 counterexample.  Powering the APU on, writing 0xf0 to NR12
(channel-1 volume 15) and then writing 0x00 to NR52 leaves channel 0's
current volume at 15 and the NR12 backing byte at 0xf0: clearing NR52
bit 7 does not zero the audio state as the claim says. -/
theorem nr52_power_off_keeps_state :
    (audioWrite (audioWrite (audioWrite audioInit 0xff26 0x80) 0xff12 0xf0)
        0xff26 0x00).c0.currentVolume = 15 ∧
    (audioWrite (audioWrite (audioWrite audioInit 0xff26 0x80) 0xff12 0xf0)
        0xff26 0x00).adata 2 = 0xf0 ∧
    (audioWrite (audioWrite (audioWrite audioInit 0xff26 0x80) 0xff12 0xf0)
        0xff26 0x00).audioEnabled = false ∧
    (15 : Int) ≠ 0 := by
  decide

/-- C7 (amended).  Writing a value with bit 7 clear to NR52 clears the
power flag and stores `value & 0x80` (zero) in the NR52 backing byte,
leaving every channel, the routing masks, the master volumes, the
frame-sequencer counters and the other register bytes unchanged; and
while the APU is powered off, a write to any other audio register in
0xff10..0xff3f is ignored completely. -/
theorem nr52_power_off_amended :
    (∀ (s : AudioState) (v : Nat), v &&& 0x80 = 0 →
      (audioWrite s 0xff26 v).audioEnabled = false ∧
      (audioWrite s 0xff26 v).adata = upd s.adata 22 (v &&& 0x80) ∧
      (audioWrite s 0xff26 v).c0 = s.c0 ∧
      (audioWrite s 0xff26 v).c1 = s.c1 ∧
      (audioWrite s 0xff26 v).c2 = s.c2 ∧
      (audioWrite s 0xff26 v).outputLeft = s.outputLeft ∧
      (audioWrite s 0xff26 v).outputRight = s.outputRight ∧
      (audioWrite s 0xff26 v).masterVolumeLeft = s.masterVolumeLeft ∧
      (audioWrite s 0xff26 v).masterVolumeRight = s.masterVolumeRight ∧
      (audioWrite s 0xff26 v).cycleCounter = s.cycleCounter ∧
      (audioWrite s 0xff26 v).step = s.step ∧
      (audioWrite s 0xff26 v).sampleTimer = s.sampleTimer) ∧
    (∀ (s : AudioState) (a v : Nat), 0xff10 ≤ a → a ≤ 0xff3f →
      a ≠ 0xff26 → ¬ audioIsEnabled s → audioWrite s a v = s) := by
  constructor
  · intro s v hv
    simp [audioWrite, hv]
  · intro s a v _ _ h26 hdis
    unfold audioWrite
    rw [if_neg h26, if_pos hdis]

/-- C7 witness: the amended theorem applied at the power-off write
NR52 := 0x00 on the freshly powered-on state, and at a write of 0x55 to
NR12 while powered off. -/
theorem nr52_power_off_amended_witness :
    ((0x00 : Nat) &&& 0x80 = 0 ∧
      (audioWrite (audioWrite audioInit 0xff26 0x80) 0xff26 0x00).audioEnabled =
        false) ∧
    ((0xff10 : Nat) ≤ 0xff12 ∧ (0xff12 : Nat) ≤ 0xff3f ∧
      (0xff12 : Nat) ≠ 0xff26 ∧ ¬ audioIsEnabled audioInit ∧
      audioWrite audioInit 0xff12 0x55 = audioInit) :=
  ⟨⟨by decide,
    (nr52_power_off_amended.1 (audioWrite audioInit 0xff26 0x80) 0x00
      (by decide)).1⟩,
   ⟨by decide, by decide, by decide, by decide,
    nr52_power_off_amended.2 audioInit 0xff12 0x55 (by decide) (by decide)
      (by decide) (by decide)⟩⟩

/-- C8.  The 8-bit add (`detail::Add_r8`, used by ADD with carry=false
and by ADC) sets the accumulator to `(a + b + c) mod 256`, Z iff the
result is zero, N to 0, H iff the low-nibble sum `a%16 + b%16 + c`
exceeds 0xf, and C iff the full sum exceeds 0xff; and executing opcode
0x80 (`add a,b`) from A=0x0f, B=0x01 yields A=0x10 with flags
Z=0, N=0, H=1, C=0, the PC advanced by 1 and 4 cycles. -/
theorem add_r8_flag_contract (a b fl : Nat) (carry : Bool)
    (ha : a < 256) (hb : b < 256) (hfl : fl < 256) :
    ((add_r8 fl a b carry).1 = (a + b + cond carry 1 0) % 256 ∧
      ((add_r8 fl a b carry).2 &&& 0x80 = 0x80 ↔
        (a + b + cond carry 1 0) % 256 = 0) ∧
      (add_r8 fl a b carry).2 &&& 0x40 = 0 ∧
      ((add_r8 fl a b carry).2 &&& 0x20 = 0x20 ↔
        a % 16 + b % 16 + cond carry 1 0 > 0xf) ∧
      ((add_r8 fl a b carry).2 &&& 0x10 = 0x10 ↔
        a + b + cond carry 1 0 > 0xff)) ∧
    (let st := fetchOpcode addOpcodeMachine
        { powerUpRegs with a := 0x0f, b := 0x01 }
     let ex := opAddAB st.2
     st.1 = 0x80 ∧ ex.1.a = 0x10 ∧ ex.1.fl = 0x20 ∧ ex.1.pc = 0x101 ∧
       ex.2 = 4) := by
  constructor
  · cases carry <;>
    · unfold add_r8
      simp only [cond_true, cond_false, land15_small.1, land15_small.2]
      obtain ⟨g1, g2, g3, g4⟩ := flagChain_bits fl hfl _ _ _
      refine ⟨by simp, ?_, ?_, ?_, ?_⟩
      · rw [g2]; simp
      · exact g3
      · rw [g4]
        simp only [beq_iff_eq, land15_mod16 a ha, land15_mod16 b hb]
        rw [land16_gt15 _ (by omega)]
      · rw [g1]; simp
  · decide

/-- C8 witness: the flag contract applied at a=0x0f, b=0x01, fl=0xb0,
carry=false (the claim's ADD A,B scenario). -/
theorem add_r8_flag_contract_witness :
    ((0x0f : Nat) < 256 ∧ (0x01 : Nat) < 256 ∧ (0xb0 : Nat) < 256) ∧
    ((add_r8 0xb0 0x0f 0x01 false).1 = (0x0f + 0x01 + cond false 1 0) % 256 ∧
      ((add_r8 0xb0 0x0f 0x01 false).2 &&& 0x80 = 0x80 ↔
        (0x0f + 0x01 + cond false 1 0) % 256 = 0) ∧
      (add_r8 0xb0 0x0f 0x01 false).2 &&& 0x40 = 0 ∧
      ((add_r8 0xb0 0x0f 0x01 false).2 &&& 0x20 = 0x20 ↔
        0x0f % 16 + 0x01 % 16 + cond false 1 0 > 0xf) ∧
      ((add_r8 0xb0 0x0f 0x01 false).2 &&& 0x10 = 0x10 ↔
        0x0f + 0x01 + cond false 1 0 > 0xff)) :=
  ⟨⟨by decide, by decide, by decide⟩,
    (add_r8_flag_contract 0x0f 0x01 0xb0 false (by decide) (by decide)
      (by decide)).1⟩

/-- C9.  PUSH AF then POP AF (the opcode 0xf5 and 0xf1 bodies) from any
state whose SP-1 and SP-2 lie in WRAM or HRAM restores A exactly,
restores F masked with 0xf0 and restores SP; and POP AF always masks
the popped flags byte with 0xf0. -/
theorem push_pop_af_round_trip (m : Machine) (r : Registers)
    (hsp : r.sp < 65536) (ha : r.a < 256) (hfl : r.fl < 256)
    (h1 : plainRam ((r.sp + 65535) % 65536))
    (h2 : plainRam ((r.sp + 65534) % 65536)) :
    ((pushPopAF m r).2.a = r.a ∧
      (pushPopAF m r).2.fl = r.fl &&& 0xf0 ∧
      (pushPopAF m r).2.sp = r.sp) ∧
    (∀ (m' : Machine) (r' : Registers),
      (opPopAF m' r').1.2.fl = memRead m' r'.sp &&& 0xf0) := by
  constructor
  · set s1 := (r.sp + 65535) % 65536 with hs1
    set s2 := (r.sp + 65534) % 65536 with hs2
    have e21 : (s1 + 65535) % 65536 = s2 := by omega
    have e12 : (s2 + 1) % 65536 = s1 := by omega
    have e1sp : (s1 + 1) % 65536 = r.sp := by omega
    have hne : s1 ≠ s2 := by omega
    have w1 : memWrite m s1 r.a = { m with mem := upd m.mem s1 (r.a % 256) } :=
      memWrite_plainRam _ _ _ h1
    have w2 : ∀ mm, memWrite mm s2 r.fl =
        { mm with mem := upd mm.mem s2 (r.fl % 256) } :=
      fun mm => memWrite_plainRam _ _ _ h2
    have rd2 : ∀ mm, memRead mm s2 = mm.mem s2 :=
      fun mm => memRead_plainRam _ _ h2
    have rd1 : ∀ mm, memRead mm s1 = mm.mem s1 :=
      fun mm => memRead_plainRam _ _ h1
    simp only [pushPopAF, opPushAF, opPopAF, push8, pop8, e21, e12, e1sp,
      w1, w2, rd1, rd2]
    simp only [upd, if_pos rfl, if_neg hne, Nat.mod_eq_of_lt ha,
      Nat.mod_eq_of_lt hfl]
    simp
  · intro m' r'
    rfl

/-- C9 witness: the round trip applied at SP=0xfffe (both stack slots
in HRAM), A=0x12, F=0xb5. -/
theorem push_pop_af_round_trip_witness :
    ((0xfffe : Nat) < 65536 ∧ (0x12 : Nat) < 256 ∧ (0xb5 : Nat) < 256 ∧
      plainRam ((0xfffe + 65535) % 65536) ∧
      plainRam ((0xfffe + 65534) % 65536)) ∧
    ((pushPopAF (powerUp cart256)
        { powerUpRegs with a := 0x12, fl := 0xb5, sp := 0xfffe }).2.a = 0x12 ∧
      (pushPopAF (powerUp cart256)
        { powerUpRegs with a := 0x12, fl := 0xb5, sp := 0xfffe }).2.fl =
          0xb5 &&& 0xf0 ∧
      (pushPopAF (powerUp cart256)
        { powerUpRegs with a := 0x12, fl := 0xb5, sp := 0xfffe }).2.sp =
          0xfffe) :=
  ⟨⟨by decide, by decide, by decide, by decide, by decide⟩,
    (push_pop_af_round_trip (powerUp cart256)
      { powerUpRegs with a := 0x12, fl := 0xb5, sp := 0xfffe }
      (by decide) (by decide) (by decide) (by decide) (by decide)).1⟩

set_option maxRecDepth 8192 in
/-- C10.  IF and IE are full 8-bit registers: when the lowest set bit of
IF & IE is an undefined interrupt index n in {5, 6, 7}, `GetPendingIRQ`
returns n, and the dispatch with IME set clears that IF bit, pushes PC
(high byte at SP-1, low byte at SP-2, SP ends two lower) and jumps to
0x40 + 8*n, one of 0x68, 0x70, 0x78 — outside the defined vector
table.  The dispatch result is stated as one equation exhibiting the
pushed bytes, the new SP and the new PC. -/
theorem undefined_irq_bits_dispatch (m : Machine) (r : Registers) (n : Nat)
    (hn5 : 5 ≤ n) (hn7 : n ≤ 7)
    (hif : m.ioData 15 < 256)
    (hbit : (m.ioData 15 &&& m.ie) &&& (1 <<< n) ≠ 0)
    (hlow : (m.ioData 15 &&& m.ie) % (2 ^ n) = 0)
    (hime : r.ime = true) (hpc : r.pc < 65536)
    (h1 : plainRam ((r.sp + 65535) % 65536))
    (h2 : plainRam ((r.sp + 65534) % 65536)) :
    getPendingIRQ m = some n ∧
    dispatchIRQ m r =
      ({ m with
          ioData := upd m.ioData 15 (clearBit (m.ioData 15) n),
          mem := upd (upd m.mem ((r.sp + 65535) % 65536) (r.pc >>> 8))
            ((r.sp + 65534) % 65536) (r.pc &&& 0xff) },
       { r with halt := false, pc := 0x40 + 8 * n,
                sp := (r.sp + 65534) % 65536 }) ∧
    (0x40 + 8 * n = 0x68 ∨ 0x40 + 8 * n = 0x70 ∨ 0x40 + 8 * n = 0x78) := by
  have hq : m.ioData 15 &&& m.ie < 256 :=
    Nat.lt_of_le_of_lt (Nat.and_le_left) hif
  have hpend : getPendingIRQ m = some n := by
    unfold getPendingIRQ
    have hq0 : m.ioData 15 &&& m.ie ≠ 0 := by
      intro h0; rw [h0] at hbit; simp at hbit
    rw [if_neg hq0]
    interval_cases n
    · rcases (findPending_high _ hq).1 with h | h | h
      · exact absurd h hbit
      · exact absurd hlow h
      · exact h.2
    · rcases (findPending_high _ hq).2.1 with h | h | h
      · exact absurd h hbit
      · exact absurd hlow h
      · exact h.2
    · rcases (findPending_high _ hq).2.2 with h | h | h
      · exact absurd h hbit
      · exact absurd hlow h
      · exact h.2
  refine ⟨hpend, ?_, by omega⟩
  have e21 : ((r.sp + 65535) % 65536 + 65535) % 65536 = (r.sp + 65534) % 65536 := by
    omega
  have mhi : (r.pc >>> 8) % 256 = r.pc >>> 8 := by
    apply Nat.mod_eq_of_lt
    rw [Nat.shiftRight_eq_div_pow]
    omega
  have mlo : (r.pc &&& 0xff) % 256 = r.pc &&& 0xff :=
    Nat.mod_eq_of_lt (Nat.lt_of_le_of_lt Nat.and_le_right (by omega))
  simp only [dispatchIRQ, hpend, hime, if_true]
  simp only [invokeIRQ, push16, push8, clearPendingIRQ, e21]
  rw [memWrite_plainRam _ _ _ h1, memWrite_plainRam _ _ _ h2]
  simp only [mhi, mlo]

/-- C10 witness: IF=0x20, IE=0xe0 (lowest pending bit 5), IME set,
PC=0xabcd, SP=0xfffe: the query returns 5 and dispatch targets
0x40 + 8*5 = 0x68. -/
theorem undefined_irq_bits_dispatch_witness :
    (5 ≤ 5 ∧ 5 ≤ 7 ∧ irqBit5Machine.ioData 15 < 256 ∧
      (irqBit5Machine.ioData 15 &&& irqBit5Machine.ie) &&& (1 <<< 5) ≠ 0 ∧
      (irqBit5Machine.ioData 15 &&& irqBit5Machine.ie) % (2 ^ 5) = 0) ∧
    getPendingIRQ irqBit5Machine = some 5 ∧
    (0x40 + 8 * 5 = 0x68 ∨ 0x40 + 8 * 5 = 0x70 ∨ 0x40 + 8 * 5 = 0x78) :=
  ⟨⟨by decide, by decide, by decide, by decide, by decide⟩,
    (undefined_irq_bits_dispatch irqBit5Machine
        { powerUpRegs with pc := 0xabcd, sp := 0xfffe, ime := true } 5
        (by decide) (by decide) (by decide) (by decide) (by decide) rfl
        (by decide) (by decide) (by decide)).1,
    (undefined_irq_bits_dispatch irqBit5Machine
        { powerUpRegs with pc := 0xabcd, sp := 0xfffe, ime := true } 5
        (by decide) (by decide) (by decide) (by decide) (by decide) rfl
        (by decide) (by decide) (by decide)).2.2⟩

end Gbemu
